import Mathlib

/-!
Verification of the Turkey-Weather-Forecast data-collection pipeline.

Shallow embedding of the two core scripts:
* `src/data_collection/batch_01.py` — the sharded fetcher (WMO decoding,
  skip-if-exists resumability, exponential backoff on rate limits,
  per-location error isolation, per-location progress log);
* `src/data_collection/merge_data.py` — the shard merger (discovery,
  parse-failure tolerance, concatenation, hierarchical sort, export).
-/

namespace TWF

/-! ## Weather code decoder (batch_01.py, lines 42-57) -/

/-- The WMO code table, transcribed verbatim from `WMO_CODES` in batch_01.py. -/
def WMO_CODES : List (Int × String) :=
  [(0, "Clear sky"), (1, "Mainly clear"), (2, "Partly cloudy"), (3, "Overcast"),
   (45, "Fog"), (48, "Depositing rime fog"), (51, "Drizzle: Light"), (53, "Drizzle: Moderate"),
   (55, "Drizzle: Dense"), (56, "Freezing Drizzle: Light"), (57, "Freezing Drizzle: Dense"),
   (61, "Rain: Slight"), (63, "Rain: Moderate"), (65, "Rain: Heavy"), (66, "Freezing Rain: Light"),
   (67, "Freezing Rain: Heavy"), (71, "Snow fall: Slight"), (73, "Snow fall: Moderate"),
   (75, "Snow fall: Heavy"), (77, "Snow grains"), (80, "Rain showers: Slight"),
   (81, "Rain showers: Moderate"), (82, "Rain showers: Violent"), (85, "Snow showers: Slight"),
   (86, "Snow showers: Heavy"), (95, "Thunderstorm: Slight or moderate"),
   (96, "Thunderstorm with slight hail"), (99, "Thunderstorm with heavy hail")]

/-- Python `dict.get` on an association list: first matching key wins,
`none` when the key is absent. -/
def dictGet : List (Int × String) → Int → Option String
  | [], _ => none
  | (k, v) :: rest, c => if k = c then some v else dictGet rest c

/-- `get_weather_description` (batch_01.py line 55-57):
`WMO_CODES.get(int(code), 'Unknown')`, here on an already-integral code. -/
def get_weather_description (code : Int) : String :=
  match dictGet WMO_CODES code with
  | some d => d
  | none => "Unknown"

/-- Python `int()` applied to a (rational-valued) number: truncation toward
zero — floor for non-negative arguments, ceiling for negative ones. -/
def pythonInt (q : ℚ) : ℤ :=
  if 0 ≤ q then ⌊q⌋ else ⌈q⌉

/-- `get_weather_description` as actually applied in batch_01.py line 139:
the `weather_code` column holds float values, and `int(code)` truncates
before the table lookup. -/
def get_weather_description_num (q : ℚ) : String :=
  get_weather_description (pythonInt q)

/-! ## Shard fetcher (batch_01.py, lines 87-158)

One location of the main execution loop: the existence/size pre-check
(lines 96-101), then the unbounded `while True` retry loop (lines 103-156).
The remote API is modelled by the list of results its successive calls
would return for this location. -/

/-- Outcome of one call of `openmeteo.weather_api` for a location.
`rateLimited` stands for an exception whose text contains "limit exceeded"
or "429" (line 150); `permanentError msg` for any other exception. -/
inductive ApiResult
  | success
  | rateLimited
  | permanentError (msg : String)
deriving DecidableEq

/-- Category a location ends in, per the spec's fetch report vocabulary. -/
inductive Outcome
  | succeeded
  | skipped
  | failed
deriving DecidableEq

/-- One location of the registry slice, together with the state of its
shard file (`fileSize = some n` when the file exists with size `n`) and
the successive results the API would return for it. -/
structure LocSpec where
  city : String
  plate : Nat
  fileSize : Option Nat
  responses : List ApiResult
deriving DecidableEq

/-- What processing one location produced: its outcome (`none` when the
retry loop is still waiting on the API, i.e. the response list ran out),
the number of network calls made, the rate-limit waits slept in order,
and whether the pre-check deleted the file / a shard file was written. -/
structure LocResult where
  outcome : Option Outcome
  attempts : Nat
  waits : List Nat
  fileDeleted : Bool
  fileWritten : Bool
deriving DecidableEq

/-- The `while True` retry loop (batch_01.py lines 103-156), with current
backoff wait `w` (initialised to 60 at line 104, doubled at line 153).
Returns (outcome, number of API calls, list of rate-limit waits). -/
def fetchLoop : List ApiResult → Nat → Option Outcome × Nat × List Nat
  | [], _ => (none, 0, [])
  | ApiResult.success :: _, _ => (some Outcome.succeeded, 1, [])
  | ApiResult.permanentError _ :: _, _ => (some Outcome.failed, 1, [])
  | ApiResult.rateLimited :: rest, w =>
      let r := fetchLoop rest (w * 2)
      (r.1, r.2.1 + 1, w :: r.2.2)

/-- The escalating waits the retry loop sleeps through on `n` consecutive
rate limits, starting from current wait `w`: `[w, w*2, w*4, ...]`. -/
def backoffWaits : Nat → Nat → List Nat
  | 0, _ => []
  | n + 1, w => w :: backoffWaits n (w * 2)

/-- One iteration of the main execution loop for one location
(batch_01.py lines 87-156): the skip-if-exists / remove-if-small
pre-check, then the retry loop. -/
def processLocation (l : LocSpec) : LocResult :=
  match l.fileSize with
  | some size =>
      if size > 1000 then
        { outcome := some Outcome.skipped, attempts := 0, waits := [],
          fileDeleted := false, fileWritten := false }
      else
        let r := fetchLoop l.responses 60
        { outcome := r.1, attempts := r.2.1, waits := r.2.2,
          fileDeleted := true,
          fileWritten := decide (r.1 = some Outcome.succeeded) }
  | none =>
      let r := fetchLoop l.responses 60
      { outcome := r.1, attempts := r.2.1, waits := r.2.2,
        fileDeleted := false,
        fileWritten := decide (r.1 = some Outcome.succeeded) }

/-- The whole batch loop: locations in registry order, each fully
processed before the next. A location whose retry loop never resolves
(`outcome = none`) blocks the batch there, as the Python loop would. -/
def runBatch : List LocSpec → List (String × LocResult)
  | [] => []
  | l :: rest =>
      let r := processLocation l
      match r.outcome with
      | none => [(l.city, r)]
      | some _ => (l.city, r) :: runBatch rest

/-- The lines printed by the retry loop for one location, mirroring the
`print` calls of batch_01.py lines 107, 142, 151 and 155. -/
def attemptLog (city : String) : List ApiResult → Nat → List String
  | [], _ => ["Downloading " ++ city ++ "..."]
  | ApiResult.success :: _, _ =>
      ["Downloading " ++ city ++ "...", "SUCCESS."]
  | ApiResult.permanentError msg :: _, _ =>
      ["Downloading " ++ city ++ "...",
       "Error: " ++ msg ++ ". Skipping " ++ city ++ "."]
  | ApiResult.rateLimited :: rest, w =>
      ("Downloading " ++ city ++ "...") ::
      ("Rate Limit Hit! Pausing for " ++ toString w ++ "s...") ::
      attemptLog city rest (w * 2)

/-- The lines printed while processing one location (skip message of
line 98, or the retry-loop lines). -/
def locLog (l : LocSpec) : List String :=
  match l.fileSize with
  | some size =>
      if size > 1000 then ["Skipping " ++ l.city ++ ": Data already exists."]
      else attemptLog l.city l.responses 60
  | none => attemptLog l.city l.responses 60

/-- Everything the batch run prints after its startup banner: the
per-location lines, then the fixed completion banner of line 158. -/
def batchLog : List LocSpec → List String
  | [] => ["BATCH_1 Completed Successfully!"]
  | l :: rest =>
      match (processLocation l).outcome with
      | none => locLog l
      | some _ => locLog l ++ batchLog rest

/-- How many locations of a batch report ended in outcome `o`. -/
def countOutcome (rep : List (String × LocResult)) (o : Outcome) : Nat :=
  rep.countP fun p => decide (p.2.outcome = some o)

/-- The three-location scenario of the spec's report example: the first
two locations fetch successfully, the third fails permanently. -/
def exampleBatch : List LocSpec :=
  [{ city := "Adana", plate := 1, fileSize := none,
     responses := [ApiResult.success] },
   { city := "Adiyaman", plate := 2, fileSize := none,
     responses := [ApiResult.success] },
   { city := "Afyon", plate := 3, fileSize := none,
     responses := [ApiResult.permanentError ("boom")] }]

/-! ## Shard merger (merge_data.py, lines 32-101) -/

/-- One Shard Record, with the columns written by batch_01.py lines
124-139. The `date` is the number of days since an epoch, as compared
after `pd.to_datetime` coercion; measurement columns are carried as
rationals and never computed with. -/
structure Row where
  date : Int
  city : String
  plate_code : Int
  max_temp : ℚ
  min_temp : ℚ
  precipitation : ℚ
  wind_speed : ℚ
  weather_code : ℚ
  weather_desc : String
deriving DecidableEq

/-- The sort key of merge_data.py line 87: `by=['plate_code', 'date']`. -/
def rowKey (r : Row) : Int × Int :=
  (r.plate_code, r.date)

/-- Lexicographic order on `(plate_code, date)` used by the sort. -/
def rowLe (a b : Row) : Prop :=
  a.plate_code < b.plate_code ∨ (a.plate_code = b.plate_code ∧ a.date ≤ b.date)

instance : DecidableRel rowLe := fun a b => by
  unfold rowLe
  infer_instance

instance : IsTotal Row rowLe :=
  ⟨fun a b => by unfold rowLe; omega⟩

instance : IsTrans Row rowLe :=
  ⟨fun a b c hab hbc => by unfold rowLe at hab hbc ⊢; omega⟩

/-- Strict version of `rowLe`: weakly below and with a different key. -/
def rowLt (a b : Row) : Prop :=
  rowLe a b ∧ rowKey a ≠ rowKey b

instance : IsAntisymm Row rowLt :=
  ⟨fun a b hab hba => by
    obtain ⟨h1, hne⟩ := hab
    obtain ⟨h2, _⟩ := hba
    exact absurd (by unfold rowKey; unfold rowLe at h1 h2; rw [Prod.mk.injEq]; omega) hne⟩

/-- `master_df.sort_values(by=['plate_code', 'date'])` (merge_data.py
line 87), modelled by a comparison sort on the same key. -/
def sort_values (l : List Row) : List Row :=
  List.insertionSort rowLe l

/-- What a merge run leaves behind: the process exit status and the
master file's content (`none` when no master file is written). -/
structure MergeResult where
  exitCode : Nat
  master : Option (List Row)
deriving DecidableEq

/-- `main()` of merge_data.py. `files` is the discovered CSV list in
glob order, each entry `some frame` when `pd.read_csv` succeeds and
`none` when it raises (lines 55-67). `hasDate` records whether the
concatenated frame has a `date` column (line 82); rows of this model
always carry a date, so it is passed as a flag.
* no CSV files: `sys.exit(1)` (lines 44-47);
* files found but none parsed: plain `return`, so exit status 0 and no
  output file (lines 74-76);
* otherwise concatenate (line 79), sort when the date column exists
  (line 87), and write the master (line 93). -/
def mergeRun (hasDate : Bool) (files : List (Option (List Row))) : MergeResult :=
  if files = [] then { exitCode := 1, master := none }
  else if files.filterMap id = [] then { exitCode := 0, master := none }
  else
    { exitCode := 0,
      master := some (if hasDate then sort_values (files.filterMap id).flatten
                      else (files.filterMap id).flatten) }

/-- A concrete shard row used to instantiate the merge theorems. -/
def sampleRow (p d : Int) : Row :=
  { date := d, city := "X", plate_code := p, max_temp := 0, min_temp := 0,
    precipitation := 0, wind_speed := 0, weather_code := 0,
    weather_desc := "Clear sky" }

/-! ## Helper lemmas -/

theorem pairwise_and_of {α : Type} {R S : α → α → Prop} {l : List α}
    (hR : l.Pairwise R) (hS : l.Pairwise S) :
    l.Pairwise fun a b => R a b ∧ S a b := by
  induction l with
  | nil => exact List.Pairwise.nil
  | cons a l ih =>
      rcases List.pairwise_cons.1 hR with ⟨hRa, hRl⟩
      rcases List.pairwise_cons.1 hS with ⟨hSa, hSl⟩
      exact List.pairwise_cons.2 ⟨fun b hb => ⟨hRa b hb, hSa b hb⟩, ih hRl hSl⟩

theorem sorted_rowLt_of_nodup {l : List Row} (hs : l.Sorted rowLe)
    (hn : (l.map rowKey).Nodup) : l.Sorted rowLt := by
  have hne : l.Pairwise fun a b => rowKey a ≠ rowKey b := List.pairwise_map.1 hn
  exact pairwise_and_of hs hne

theorem sort_values_sorted (l : List Row) : (sort_values l).Sorted rowLe :=
  List.sorted_insertionSort rowLe l

theorem sort_values_perm (l : List Row) : (sort_values l).Perm l :=
  List.perm_insertionSort rowLe l

/-- Two inputs with the same rows (and duplicate-free location-date keys)
sort to the same master list. -/
theorem sort_values_eq_of_perm {l₁ l₂ : List Row} (hp : l₁.Perm l₂)
    (hn : (l₁.map rowKey).Nodup) : sort_values l₁ = sort_values l₂ := by
  have hp' : (sort_values l₁).Perm (sort_values l₂) :=
    ((sort_values_perm l₁).trans hp).trans (sort_values_perm l₂).symm
  have hn₁ : ((sort_values l₁).map rowKey).Nodup :=
    (List.Perm.nodup_iff ((sort_values_perm l₁).map rowKey)).2 hn
  have hn₂ : ((sort_values l₂).map rowKey).Nodup :=
    (List.Perm.nodup_iff (hp'.map rowKey)).1 hn₁
  exact List.eq_of_perm_of_sorted (r := rowLt) hp'
    (sorted_rowLt_of_nodup (sort_values_sorted l₁) hn₁)
    (sorted_rowLt_of_nodup (sort_values_sorted l₂) hn₂)

theorem backoffWaits_length (n w : Nat) : (backoffWaits n w).length = n := by
  induction n generalizing w with
  | zero => rfl
  | succ n ih => simp [backoffWaits, ih]

theorem backoffWaits_getElem (n w k : Nat) (h : k < n) :
    (backoffWaits n w)[k]? = some (w * 2 ^ k) := by
  induction n generalizing w k with
  | zero => omega
  | succ n ih =>
      cases k with
      | zero => simp [backoffWaits]
      | succ k =>
          have hstep : (backoffWaits (n + 1) w)[k + 1]? = (backoffWaits n (w * 2))[k]? := by
            simp [backoffWaits]
          rw [hstep, ih (w * 2) k (by omega)]
          congr 1
          ring

/-- Unrolling the retry loop over `n` consecutive rate-limit responses:
the loop sleeps the doubling waits, spends `n` extra calls, and then
continues on the remaining responses with the wait multiplied by `2^n`. -/
theorem fetchLoop_replicate (n w : Nat) (rest : List ApiResult) :
    fetchLoop (List.replicate n ApiResult.rateLimited ++ rest) w =
      ((fetchLoop rest (w * 2 ^ n)).1,
       (fetchLoop rest (w * 2 ^ n)).2.1 + n,
       backoffWaits n w ++ (fetchLoop rest (w * 2 ^ n)).2.2) := by
  induction n generalizing w with
  | zero => simp [backoffWaits]
  | succ n ih =>
      rw [List.replicate_succ, List.cons_append]
      have h2 : w * 2 * 2 ^ n = w * 2 ^ (n + 1) := by ring
      simp only [fetchLoop]
      rw [ih (w * 2), h2]
      simp [backoffWaits]
      omega

theorem fetchLoop_attempts_pos (rs : List ApiResult) (w : Nat) (h : rs ≠ []) :
    1 ≤ (fetchLoop rs w).2.1 := by
  cases rs with
  | nil => exact absurd rfl h
  | cons r rest => cases r <;> simp [fetchLoop]

theorem dictGet_eq_none (l : List (Int × String)) (c : Int)
    (hc : c ∉ l.map Prod.fst) : dictGet l c = none := by
  induction l with
  | nil => rfl
  | cons p rest ih =>
      obtain ⟨k, v⟩ := p
      simp only [List.map_cons, List.mem_cons] at hc
      push_neg at hc
      obtain ⟨h1, h2⟩ := hc
      simp only [dictGet]
      rw [if_neg fun h => h1 h.symm]
      exact ih h2

/-- The master written by a two-file merge. -/
theorem mergeRun_two (X Y : List Row) :
    (mergeRun true [some X, some Y]).master = some (sort_values (X ++ Y)) := by
  simp [mergeRun]

/-- The master written by a three-file merge. -/
theorem mergeRun_three (X Y Z : List Row) :
    (mergeRun true [some X, some Y, some Z]).master =
      some (sort_values (X ++ (Y ++ Z))) := by
  simp [mergeRun]

/-! ## Claims -/

/-- Claim C1: for every merge run whose loaded shards carry a date column,
every pair of adjacent rows of the written master dataset satisfies
`(plate_code, date) <= (plate_code, date)` lexicographically — the output
is sorted primarily by location identity, secondarily by date. -/
theorem merge_output_sorted (files : List (Option (List Row))) (m : List Row)
    (h : (mergeRun true files).master = some m) :
    m.Chain' rowLe := by
  by_cases hne : files = []
  · rw [hne] at h
    simp [mergeRun] at h
  · by_cases hfr : files.filterMap id = []
    · simp [mergeRun, hne, hfr] at h
    · simp only [mergeRun, if_neg hne, if_neg hfr, if_pos rfl, Option.some.injEq,
        if_true] at h
      exact h ▸ List.Pairwise.chain' (sort_values_sorted (files.filterMap id).flatten)

/-- Witness for C1 at a concrete two-shard merge. -/
theorem merge_output_sorted_witness :
    List.Chain' rowLe [sampleRow 1 0, sampleRow 1 1, sampleRow 2 0] :=
  merge_output_sorted [some [sampleRow 2 0, sampleRow 1 1], some [sampleRow 1 0]]
    [sampleRow 1 0, sampleRow 1 1, sampleRow 2 0] (by decide)

/-- Claim C2 counterexample: a merge run discovering one CSV file which
fails to parse writes no master dataset, but exits with status 0, not a
non-zero status as the claim requires (merge_data.py line 76 is a plain
`return`, unlike the `sys.exit(1)` of line 47). -/
theorem merge_all_corrupt_exit_zero :
    (mergeRun true [none]).master = none ∧
    ¬(mergeRun true [none]).exitCode ≠ 0 := by
  decide

/-- Claim C2 (amended): when zero shard files load successfully no master
dataset is written; the run exits non-zero (status 1) when the directory
contains no CSV files at all, but when files exist and every one fails to
parse it reports the error and exits with status 0. -/
theorem merge_no_input (hasDate : Bool) (files : List (Option (List Row))) :
    (files = [] → mergeRun hasDate files = { exitCode := 1, master := none }) ∧
    (files.filterMap id = [] → (mergeRun hasDate files).master = none) ∧
    (files ≠ [] → files.filterMap id = [] → (mergeRun hasDate files).exitCode = 0) := by
  refine ⟨fun h => by simp [mergeRun, h], fun h => ?_, fun h1 h2 => ?_⟩
  · by_cases hne : files = [] <;> simp [mergeRun, hne, h]
  · simp [mergeRun, h1, h2]

/-- Witness for the amended C2 at a concrete all-corrupt run. -/
theorem merge_no_input_witness :
    (mergeRun true [none]).master = none ∧ (mergeRun true [none]).exitCode = 0 :=
  ⟨(merge_no_input true [none]).2.1 (by decide),
   (merge_no_input true [none]).2.2 (by decide) (by decide)⟩

/-- Claim C3: a location whose shard file exists with size strictly above
the 1000-byte threshold is marked skipped with zero network calls, and the
batch proceeds to the next location. -/
theorem skip_large_shard (l : LocSpec) (sz : Nat) (rest : List LocSpec)
    (hf : l.fileSize = some sz) (hsz : sz > 1000) :
    processLocation l =
      { outcome := some Outcome.skipped, attempts := 0, waits := [],
        fileDeleted := false, fileWritten := false } ∧
    runBatch (l :: rest) = (l.city, processLocation l) :: runBatch rest := by
  have hp : processLocation l =
      { outcome := some Outcome.skipped, attempts := 0, waits := [],
        fileDeleted := false, fileWritten := false } := by
    unfold processLocation
    rw [hf]
    simp [hsz]
  refine ⟨hp, ?_⟩
  simp only [runBatch, hp]

/-- Witness for C3 at a concrete large shard file. -/
theorem skip_large_shard_witness :
    processLocation
      { city := "Adana", plate := 1, fileSize := some 5000, responses := [] } =
      { outcome := some Outcome.skipped, attempts := 0, waits := [],
        fileDeleted := false, fileWritten := false } :=
  (skip_large_shard _ 5000 [] rfl (by decide)).1

/-- Claim C4: a location whose shard file exists with size at or below the
1000-byte threshold has the file deleted and is then fetched from the
network (at least one API call when the API answers at all). -/
theorem refetch_small_shard (l : LocSpec) (sz : Nat)
    (hf : l.fileSize = some sz) (hsz : sz ≤ 1000) :
    processLocation l =
      { outcome := (fetchLoop l.responses 60).1,
        attempts := (fetchLoop l.responses 60).2.1,
        waits := (fetchLoop l.responses 60).2.2,
        fileDeleted := true,
        fileWritten := decide ((fetchLoop l.responses 60).1 = some Outcome.succeeded) } ∧
    (l.responses ≠ [] → 1 ≤ (processLocation l).attempts) := by
  have hp : processLocation l =
      { outcome := (fetchLoop l.responses 60).1,
        attempts := (fetchLoop l.responses 60).2.1,
        waits := (fetchLoop l.responses 60).2.2,
        fileDeleted := true,
        fileWritten := decide ((fetchLoop l.responses 60).1 = some Outcome.succeeded) } := by
    simp only [processLocation, hf]
    rw [if_neg (show ¬sz > 1000 by omega)]
  refine ⟨hp, fun hne => ?_⟩
  rw [hp]
  exact fetchLoop_attempts_pos l.responses 60 hne

/-- Witness for C4 at a concrete undersized shard file. -/
theorem refetch_small_shard_witness :
    processLocation
      { city := "Adana", plate := 1, fileSize := some 200,
        responses := [ApiResult.success] } =
      { outcome := (fetchLoop [ApiResult.success] 60).1,
        attempts := (fetchLoop [ApiResult.success] 60).2.1,
        waits := (fetchLoop [ApiResult.success] 60).2.2,
        fileDeleted := true,
        fileWritten := decide ((fetchLoop [ApiResult.success] 60).1 = some Outcome.succeeded) } ∧
    1 ≤ (processLocation
      { city := "Adana", plate := 1, fileSize := some 200,
        responses := [ApiResult.success] }).attempts :=
  ⟨(refetch_small_shard _ 200 rfl (by decide)).1,
   (refetch_small_shard _ 200 rfl (by decide)).2 (by decide)⟩

/-- Claim C5: on `n` consecutive rate-limit responses for one location the
waits slept are `60 * 2^k` for `k = 0, ..., n-1` (so the `k`-th wait,
counting from one, is `60 * 2^(k-1)`: base 60, strictly doubling), the
loop then retries with the remaining responses rather than abandoning the
location, and for every `n` a success after `n` rate limits still ends in
the succeeded outcome after exactly `n + 1` calls — no retry bound. -/
theorem rateLimited_backoff (n : Nat) (rest : List ApiResult) :
    (∀ k, k < n →
      (fetchLoop (List.replicate n ApiResult.rateLimited ++ rest) 60).2.2[k]? =
        some (60 * 2 ^ k)) ∧
    (fetchLoop (List.replicate n ApiResult.rateLimited ++ rest) 60).1 =
      (fetchLoop rest (60 * 2 ^ n)).1 ∧
    (fetchLoop (List.replicate n ApiResult.rateLimited ++ [ApiResult.success]) 60).1 =
      some Outcome.succeeded ∧
    (fetchLoop (List.replicate n ApiResult.rateLimited ++ [ApiResult.success]) 60).2.1 =
      n + 1 := by
  have hmain := fetchLoop_replicate n 60 rest
  have hsucc := fetchLoop_replicate n 60 [ApiResult.success]
  refine ⟨fun k hk => ?_, ?_, ?_, ?_⟩
  · rw [hmain]
    show (backoffWaits n 60 ++ (fetchLoop rest (60 * 2 ^ n)).2.2)[k]? =
      some (60 * 2 ^ k)
    rw [List.getElem?_append, backoffWaits_length, if_pos hk]
    exact backoffWaits_getElem n 60 k hk
  · rw [hmain]
  · rw [hsucc]
    rfl
  · rw [hsucc]
    show (fetchLoop [ApiResult.success] (60 * 2 ^ n)).2.1 + n = n + 1
    simp only [fetchLoop]
    omega

/-- Witness for C5: after two rate limits the second wait is 120. -/
theorem rateLimited_backoff_witness :
    (fetchLoop (List.replicate 2 ApiResult.rateLimited ++ [ApiResult.success]) 60).2.2[1]? =
      some (60 * 2 ^ 1) :=
  (rateLimited_backoff 2 [ApiResult.success]).1 1 (by decide)

/-- Claim C6: a location whose fetch hits a permanent (non-rate-limit)
error — possibly after some rate-limit waits — is marked failed, and the
batch still goes on to process the subsequent locations in order. -/
theorem permanent_failure_not_abort (l : LocSpec) (rest : List LocSpec)
    (k : Nat) (msg : String) (more : List ApiResult)
    (hf : l.fileSize = none)
    (hr : l.responses =
      List.replicate k ApiResult.rateLimited ++ ApiResult.permanentError msg :: more) :
    (processLocation l).outcome = some Outcome.failed ∧
    runBatch (l :: rest) = (l.city, processLocation l) :: runBatch rest := by
  have ho : (processLocation l).outcome = some Outcome.failed := by
    simp only [processLocation, hf]
    show (fetchLoop l.responses 60).1 = some Outcome.failed
    rw [hr, fetchLoop_replicate]
    rfl
  refine ⟨ho, ?_⟩
  simp only [runBatch, ho]

/-- Witness for C6: a permanently failing location followed by another
location that is still processed. -/
theorem permanent_failure_not_abort_witness :
    (processLocation
      { city := "Afyon", plate := 3, fileSize := none,
        responses := [ApiResult.permanentError ("boom")] }).outcome =
      some Outcome.failed ∧
    runBatch
      [{ city := "Afyon", plate := 3, fileSize := none,
         responses := [ApiResult.permanentError ("boom")] },
       { city := "Agri", plate := 4, fileSize := none,
         responses := [ApiResult.success] }] =
      ("Afyon", processLocation
        { city := "Afyon", plate := 3, fileSize := none,
          responses := [ApiResult.permanentError ("boom")] }) ::
      runBatch
        [{ city := "Agri", plate := 4, fileSize := none,
           responses := [ApiResult.success] }] :=
  ⟨(permanent_failure_not_abort _ [] 0 ("boom") [] rfl (by decide)).1,
   (permanent_failure_not_abort _
      [{ city := "Agri", plate := 4, fileSize := none,
         responses := [ApiResult.success] }] 0 ("boom") [] rfl (by decide)).2⟩

/-- Claim C7 counterexample: the fetcher never states category counts. In
the spec's own example run (two locations succeed, one fails permanently)
the complete output of the batch loop is the per-location lines followed
by the fixed completion banner; although 2 locations succeeded, no printed
line even contains the digit 2, so no line states the count of succeeded
locations, contradicting the claimed count report. -/
theorem batch_report_states_no_counts :
    batchLog exampleBatch =
      ["Downloading Adana...", "SUCCESS.", "Downloading Adiyaman...", "SUCCESS.",
       "Downloading Afyon...", "Error: boom. Skipping Afyon.",
       "BATCH_1 Completed Successfully!"] ∧
    countOutcome (runBatch exampleBatch) Outcome.succeeded = 2 ∧
    (batchLog exampleBatch).all (fun line => !line.toList.contains '2') = true := by
  decide

/-- Claim C7 (amended): a completed batch run classifies every processed
location into exactly one of the three outcome categories — the report
lists each location's outcome, and the category counts are derivable from
it (in the example scenario: 2 succeeded, 0 skipped, 1 failed) — but the
run prints per-location lines and a fixed banner only, never an aggregate
count summary. -/
theorem batch_outcome_categories (locs : List LocSpec)
    (hres : ∀ l ∈ locs, (processLocation l).outcome ≠ none) :
    (runBatch locs).length = locs.length ∧
    countOutcome (runBatch locs) Outcome.succeeded +
      countOutcome (runBatch locs) Outcome.skipped +
      countOutcome (runBatch locs) Outcome.failed = locs.length ∧
    countOutcome (runBatch exampleBatch) Outcome.succeeded = 2 ∧
    countOutcome (runBatch exampleBatch) Outcome.skipped = 0 ∧
    countOutcome (runBatch exampleBatch) Outcome.failed = 1 := by
  have main : ∀ ls : List LocSpec, (∀ l ∈ ls, (processLocation l).outcome ≠ none) →
      (runBatch ls).length = ls.length ∧
      countOutcome (runBatch ls) Outcome.succeeded +
        countOutcome (runBatch ls) Outcome.skipped +
        countOutcome (runBatch ls) Outcome.failed = ls.length := by
    intro ls
    induction ls with
    | nil => exact fun _ => ⟨rfl, rfl⟩
    | cons l rest ih =>
        intro h
        have hl := h l (List.mem_cons_self l rest)
        have hrest := ih fun x hx => h x (List.mem_cons_of_mem l hx)
        obtain ⟨o, ho⟩ := Option.ne_none_iff_exists'.1 hl
        have hrb : runBatch (l :: rest) = (l.city, processLocation l) :: runBatch rest := by
          simp only [runBatch, ho]
        refine ⟨by rw [hrb]; simp [hrest.1], ?_⟩
        rw [hrb]
        have hr2 := hrest.2
        simp only [countOutcome] at hr2
        simp only [countOutcome, List.countP_cons]
        rcases o <;> simp [ho] <;> omega
  exact ⟨(main locs hres).1, (main locs hres).2, by decide, by decide, by decide⟩

/-- Witness for the amended C7 at the example scenario. -/
theorem batch_outcome_categories_witness :
    (runBatch exampleBatch).length = exampleBatch.length :=
  (batch_outcome_categories exampleBatch (by decide)).1

/-- Claim C8: with no duplicate location-date keys across the shards,
merging shards A and B and then merging that master with C produces the
same master dataset as merging A, B and C directly, and the merge result
does not depend on the input file order. -/
theorem merge_assoc (A B C M1 : List Row)
    (hn : ((A ++ B ++ C).map rowKey).Nodup)
    (h1 : (mergeRun true [some A, some B]).master = some M1) :
    (mergeRun true [some M1, some C]).master =
      (mergeRun true [some A, some B, some C]).master ∧
    (mergeRun true [some B, some A, some C]).master =
      (mergeRun true [some A, some B, some C]).master := by
  rw [mergeRun_two A B] at h1
  have hM1 : M1 = sort_values (A ++ B) := (Option.some.injEq _ _ ▸ h1).symm
  constructor
  · rw [mergeRun_two M1 C, mergeRun_three A B C, hM1]
    have hperm : (sort_values (A ++ B) ++ C).Perm (A ++ B ++ C) :=
      (sort_values_perm (A ++ B)).append_right C
    have hnl : ((sort_values (A ++ B) ++ C).map rowKey).Nodup :=
      (List.Perm.nodup_iff (hperm.map rowKey)).2 hn
    have := sort_values_eq_of_perm hperm hnl
    rw [this, List.append_assoc]
  · rw [mergeRun_three B A C, mergeRun_three A B C]
    have hperm : (B ++ (A ++ C)).Perm (A ++ (B ++ C)) := by
      rw [← List.append_assoc, ← List.append_assoc]
      exact List.perm_append_comm.append_right C
    have hnl : ((B ++ (A ++ C)).map rowKey).Nodup := by
      refine (List.Perm.nodup_iff (hperm.map rowKey)).2 ?_
      rw [← List.append_assoc]
      exact hn
    exact sort_values_eq_of_perm hperm hnl ▸ rfl

/-- Witness for C8 at three concrete one-row shards. -/
theorem merge_assoc_witness :
    (mergeRun true [some [sampleRow 1 0, sampleRow 2 0], some [sampleRow 1 1]]).master =
      (mergeRun true [some [sampleRow 1 0], some [sampleRow 2 0], some [sampleRow 1 1]]).master :=
  (merge_assoc [sampleRow 1 0] [sampleRow 2 0] [sampleRow 1 1]
    [sampleRow 1 0, sampleRow 2 0] (by decide) (by decide)).1

/-- Claim C9: the WMO decoder is a total stateless lookup: code 95 decodes
to the thunderstorm description, and any code not in the table (such as
999) decodes to the explicit marker Unknown instead of failing. -/
theorem weather_decoder_total (c : Int) (hc : c ∉ WMO_CODES.map Prod.fst) :
    get_weather_description 95 = "Thunderstorm: Slight or moderate" ∧
    get_weather_description 999 = "Unknown" ∧
    get_weather_description c = "Unknown" := by
  refine ⟨by decide, by decide, ?_⟩
  unfold get_weather_description
  rw [dictGet_eq_none WMO_CODES c hc]

/-- Witness for C9 at the unrecognized code 999. -/
theorem weather_decoder_total_witness :
    get_weather_description 999 = "Unknown" :=
  (weather_decoder_total 999 (by decide)).2.2

/-- Claim C10: decoding a numeric weather code is insensitive to its
fractional part: `get_weather_description` applied to any rational code
equals its value at the code truncated toward zero by Python's `int()`,
and in particular 95.9 decodes to the same thunderstorm description as
95. -/
theorem weather_code_truncation (q : ℚ) :
    get_weather_description_num q = get_weather_description_num ((pythonInt q : ℚ)) ∧
    get_weather_description_num ((959 : ℚ) / 10) = "Thunderstorm: Slight or moderate" ∧
    get_weather_description_num ((959 : ℚ) / 10) = get_weather_description_num (95 : ℚ) := by
  have hcast : ∀ n : ℤ, pythonInt ((n : ℚ)) = n := by
    intro n
    unfold pythonInt
    split_ifs
    · exact Int.floor_intCast n
    · exact Int.ceil_intCast n
  have h959 : pythonInt ((959 : ℚ) / 10) = 95 := by
    unfold pythonInt
    rw [if_pos (by norm_num)]
    rw [Int.floor_eq_iff]
    constructor <;> norm_num
  have h95 : pythonInt ((95 : ℚ)) = 95 := by exact_mod_cast hcast 95
  refine ⟨?_, ?_, ?_⟩
  · unfold get_weather_description_num
    rw [hcast (pythonInt q)]
  · unfold get_weather_description_num
    rw [h959]
    decide
  · unfold get_weather_description_num
    rw [h959, h95]

end TWF
